import Mathlib

/-!
Verification of the CUDA rasterization pipeline (rasterize.cu, rasterizeTools.h).

The arithmetic of the source is embedded over the rational numbers; float
INFINITY in the depth buffer is modelled by the value none of Option.
A C-style cast from a floating value to int (truncation toward zero) is
modelled by cppIntCast.  Division by zero, which yields inf or nan in the
source, yields 0 over the rationals; no theorem below depends on that case.
-/

/-- Components of glm vec2, over the rationals. -/
structure Vec2 where
  x : ℚ
  y : ℚ
deriving DecidableEq

/-- Components of glm vec3, over the rationals. -/
structure Vec3 where
  x : ℚ
  y : ℚ
  z : ℚ
deriving DecidableEq

/-- Components of glm vec4, over the rationals.  The field w is what glm
also exposes as the alpha channel a. -/
structure Vec4 where
  x : ℚ
  y : ℚ
  z : ℚ
  w : ℚ
deriving DecidableEq

/-- glm clamp(v, lo, hi) = min(max(v, lo), hi). -/
def clampQ (v lo hi : ℚ) : ℚ := min (max v lo) hi

/-- C-style cast of a floating value to int: truncation toward zero. -/
def cppIntCast (q : ℚ) : ℤ := if 0 ≤ q then ⌊q⌋ else -⌊-q⌋

/-- The first three components of a vec4, as in glm::vec3(v). -/
def vec3OfVec4 (v : Vec4) : Vec3 := ⟨v.x, v.y, v.z⟩

/-- Componentwise difference of two vec4 values. -/
def vec4Sub (a b : Vec4) : Vec4 := ⟨a.x - b.x, a.y - b.y, a.z - b.z, a.w - b.w⟩

/-- glm::cross on vec3. -/
def crossQ (a b : Vec3) : Vec3 :=
  ⟨a.y * b.z - a.z * b.y, a.z * b.x - a.x * b.z, a.x * b.y - a.y * b.x⟩

/-- glm::dot on vec3. -/
def dotQ (a b : Vec3) : ℚ := a.x * b.x + a.y * b.y + a.z * b.z

/-- Componentwise negation of a vec3. -/
def negQ3 (a : Vec3) : Vec3 := ⟨-a.x, -a.y, -a.z⟩

/-- AABB from rasterizeTools.h: min and max corner of a bounding box. -/
structure AABB where
  min : Vec3
  max : Vec3
deriving DecidableEq

/-- getAABBForTriangle from rasterizeTools.h: componentwise min and max of
the three vertices, with the x extents clamped to [0, w] and the y extents
clamped to [0, h] (the z extents are left unclamped, as in the source). -/
def getAABBForTriangle (t0 t1 t2 : Vec3) (w h : ℤ) : AABB :=
  { min := ⟨clampQ (min (min t0.x t1.x) t2.x) 0 (w : ℚ),
            clampQ (min (min t0.y t1.y) t2.y) 0 (h : ℚ),
            min (min t0.z t1.z) t2.z⟩
    max := ⟨clampQ (max (max t0.x t1.x) t2.x) 0 (w : ℚ),
            clampQ (max (max t0.y t1.y) t2.y) 0 (h : ℚ),
            max (max t0.z t1.z) t2.z⟩ }

/-- calculateSignedArea from rasterizeTools.h. -/
def calculateSignedArea (t0 t1 t2 : Vec3) : ℚ :=
  (1 / 2) * ((t2.x - t0.x) * (t1.y - t0.y) - (t1.x - t0.x) * (t2.y - t0.y))

/-- calculateBarycentricCoordinateValue from rasterizeTools.h: ratio of the
signed area of the triangle (a, b, c) (lifted to z = 0) to the signed area
of the projected triangle. -/
def calculateBarycentricCoordinateValue (a b c : Vec2) (t0 t1 t2 : Vec3) : ℚ :=
  calculateSignedArea ⟨a.x, a.y, 0⟩ ⟨b.x, b.y, 0⟩ ⟨c.x, c.y, 0⟩ /
    calculateSignedArea t0 t1 t2

/-- calculateBarycentricCoordinate from rasterizeTools.h: the triple
(alpha, beta, gamma) with beta and gamma computed as area ratios and
alpha = 1 - beta - gamma. -/
def calculateBarycentricCoordinate (t0 t1 t2 : Vec3) (point : Vec2) : Vec3 :=
  let beta := calculateBarycentricCoordinateValue ⟨t0.x, t0.y⟩ point ⟨t2.x, t2.y⟩ t0 t1 t2
  let gamma := calculateBarycentricCoordinateValue ⟨t0.x, t0.y⟩ ⟨t1.x, t1.y⟩ point t0 t1 t2
  ⟨1 - beta - gamma, beta, gamma⟩

/-- isBarycentricCoordInBounds from rasterizeTools.h: all three components
must lie in the closed interval [0, 1]. -/
def isBarycentricCoordInBounds (b : Vec3) : Bool :=
  decide (0 ≤ b.x) && decide (b.x ≤ 1) &&
  decide (0 ≤ b.y) && decide (b.y ≤ 1) &&
  decide (0 ≤ b.z) && decide (b.z ≤ 1)

/-- getPerspectiveCorrectZAtCoordinate from rasterizeTools.h: reciprocal of
the barycentric-weighted sum of the reciprocal vertex z values. -/
def getPerspectiveCorrectZAtCoordinate (b t0 t1 t2 : Vec3) : ℚ :=
  1 / (b.x / t0.z + b.y / t1.z + b.z / t2.z)

/-- getPerspectiveCorrectTexcoordAtCoordinate from rasterizeTools.h:
1/z-weighted interpolation of the three texture coordinates, rescaled by
the interpolated depth. -/
def getPerspectiveCorrectTexcoordAtCoordinate (b t0 t1 t2 : Vec3)
    (tc0 tc1 tc2 : Vec2) (depth : ℚ) : Vec2 :=
  ⟨depth * (b.x * tc0.x / t0.z + b.y * tc1.x / t1.z + b.z * tc2.x / t2.z),
   depth * (b.x * tc0.y / t0.z + b.y * tc1.y / t1.z + b.z * tc2.y / t2.z)⟩

/-- A depth-buffer cell: some d is a finite float, none is the INFINITY the
buffer is initialized to by initDepth each frame. -/
def depthLess (d : ℚ) (cur : Option ℚ) : Bool :=
  match cur with
  | none => true
  | some c => decide (d < c)

/-- fatomicMin from rasterizeTools.h, sequentially: the cell ends up holding
the minimum of its previous content and the proposed value. -/
def fatomicMin (cur : Option ℚ) (value : ℚ) : Option ℚ :=
  match cur with
  | none => some value
  | some old => if old ≤ value then some old else some value

/-- VertexOut from rasterize.cu (the fields the rasterizer reads).  The
texture pointer dev_diffuseTex is modelled as an optional byte array, with
none standing for the NULL pointer. -/
structure VertexOut where
  pos : Vec4
  eyePos : Vec3
  eyeNor : Vec3
  color : Vec4
  texcoord0 : Vec2
  dev_diffuseTex : Option (List ℕ)
  texWidth : ℤ
  texHeight : ℤ
  materialId : ℤ
deriving DecidableEq

/-- Primitive from rasterize.cu: three assembled vertices (the type tag is
always Triangle on the paths modelled here). -/
structure Primitive where
  v0 : VertexOut
  v1 : VertexOut
  v2 : VertexOut
deriving DecidableEq

/-- First vertex of the projected triangle, glm::vec3(primitive.v[0].pos). -/
def tri0 (p : Primitive) : Vec3 := vec3OfVec4 p.v0.pos

/-- Second vertex of the projected triangle. -/
def tri1 (p : Primitive) : Vec3 := vec3OfVec4 p.v1.pos

/-- Third vertex of the projected triangle. -/
def tri2 (p : Primitive) : Vec3 := vec3OfVec4 p.v2.pos

/-- The barycentric coordinate the rasterizer computes for pixel (px, py)
of a primitive: calculateBarycentricCoordinate(tri, glm::vec2(x, y)). -/
def baryOf (p : Primitive) (px py : ℤ) : Vec3 :=
  calculateBarycentricCoordinate (tri0 p) (tri1 p) (tri2 p) ⟨(px : ℚ), (py : ℚ)⟩

/-- The perspective-correct depth the rasterizer computes for pixel
(px, py) of a primitive. -/
def depthOf (p : Primitive) (px py : ℤ) : ℚ :=
  getPerspectiveCorrectZAtCoordinate (baryOf p px py) (tri0 p) (tri1 p) (tri2 p)

/-- One byte read from the texel array; an index outside the array (an
out-of-bounds device read in the source) is modelled as reading 0. -/
def texelByte (texels : List ℕ) (i : ℤ) : ℕ := texels.getD i.toNat 0

/-- The texel index of the nearest-neighbor branch of _rasterize:
(int)(uv.s * texWidth) + (int)(uv.t * texWidth) * texHeight. -/
def nearestTexIndex (uv : Vec2) (texWidth texHeight : ℤ) : ℤ :=
  cppIntCast (uv.x * (texWidth : ℚ)) + cppIntCast (uv.y * (texWidth : ℚ)) * texHeight

/-- Modelled from the spec: the row-major texel index the specification
states for nearest-neighbor sampling, floor(u * W) + floor(v * H) * W.
Stated only to be compared with nearestTexIndex, which embeds the source. -/
def specNearestTexIndex (uv : Vec2) (texWidth texHeight : ℤ) : ℤ :=
  ⌊uv.x * (texWidth : ℚ)⌋ + ⌊uv.y * (texHeight : ℚ)⌋ * texWidth

/-- Nearest-neighbor sampling of _rasterize: three consecutive bytes at
3 * texIndex, each normalized by 255, with alpha forced to 1. -/
def nearestTexColor (texels : List ℕ) (uv : Vec2) (tw th : ℤ) : Vec4 :=
  let i := nearestTexIndex uv tw th
  ⟨(texelByte texels (3 * i) : ℚ) / 255,
   (texelByte texels (3 * i + 1) : ℚ) / 255,
   (texelByte texels (3 * i + 2) : ℚ) / 255, 1⟩

/-- The color _rasterize resolves for an accepted pixel: nearest-neighbor
texture sample when the first vertex carries a texture pointer (the
BILINEAR_FILTERING toggle is off in the source), otherwise the first
vertex's flat color. -/
def resolvedColor (p : Primitive) (px py : ℤ) : Vec4 :=
  match p.v0.dev_diffuseTex with
  | some texels =>
      let uv := getPerspectiveCorrectTexcoordAtCoordinate (baryOf p px py)
        (tri0 p) (tri1 p) (tri2 p)
        p.v0.texcoord0 p.v1.texcoord0 p.v2.texcoord0 (depthOf p px py)
      nearestTexColor texels uv p.v0.texWidth p.v0.texHeight
  | none => p.v0.color

/-- The per-pixel state _rasterize mutates in standard depth-test mode: the
depth-buffer cell and the fragment's color and material id.  The fragment's
eye-space normal is also written by the source, but its value goes through
glm::normalize (a real square root), which has no image in this rational
embedding; no claim below concerns it. -/
structure PixelState where
  color : Vec4
  materialId : ℤ
  depth : Option ℚ
deriving DecidableEq

/-- The pixel state after the per-frame clears: fragment buffer zeroed by
cudaMemset, depth buffer set to INFINITY by initDepth. -/
def initPixelState : PixelState := { color := ⟨0, 0, 0, 0⟩, materialId := 0, depth := none }

/-- The body of the double loop of _rasterize at one pixel, standard
depth-test mode (USE_K_BUFFER off): accept the pixel when the barycentric
coordinate is in bounds, then proceed only when the interpolated depth is
below the stored depth, atomically lowering the stored depth and writing
the resolved color and material id into the fragment record. -/
def rasterizePixelStep (p : Primitive) (px py : ℤ) (st : PixelState) : PixelState :=
  if isBarycentricCoordInBounds (baryOf p px py) then
    if depthLess (depthOf p px py) st.depth then
      { color := resolvedColor p px py
        materialId := p.v0.materialId
        depth := fatomicMin st.depth (depthOf p px py) }
    else st
  else st

/-- Whether pixel (x, y) is visited by the scan loops of _rasterize: the
loops run an int coordinate from the truncated bbox minimum while it
compares at most the (float) bbox maximum. -/
def pixelScanned (bbox : AABB) (x y : ℤ) : Bool :=
  decide (cppIntCast bbox.min.x ≤ x) && decide ((x : ℚ) ≤ bbox.max.x) &&
  decide (cppIntCast bbox.min.y ≤ y) && decide ((y : ℚ) ≤ bbox.max.y)

/-- shouldBackfaceCull from rasterize.cu: the face normal is the cross
product of the edges v0 - v1 and v1 - v2, and the primitive is culled when
its dot product with the negated first vertex eye-space position is
negative. -/
def shouldBackfaceCull (p : Primitive) : Bool :=
  let edge1 := vec4Sub p.v0.pos p.v1.pos
  let edge2 := vec4Sub p.v1.pos p.v2.pos
  let faceNormal := crossQ (vec3OfVec4 edge1) (vec3OfVec4 edge2)
  decide (dotQ faceNormal (negQ3 p.v0.eyePos) < 0)

/-- thrust::remove_if on the culled-primitives buffer: the primitives for
which shouldBackfaceCull is false survive, in their original order. -/
def backfaceCullSurvivors (ps : List Primitive) : List Primitive :=
  ps.filter (fun p => !shouldBackfaceCull p)

/-- The primitive count rasterize() computes under BACKFACE_CULLING.  The
source subtracts the base pointer dev_primitives from the end pointer that
thrust::remove_if returned into the distinct buffer dev_culledPrimitives;
the two base device addresses, in units of one Primitive, are the
parameters primitivesBase and culledBase.  A nonpositive result is then
replaced by 1. -/
def culledNumPrimitives (primitivesBase culledBase : ℤ) (ps : List Primitive) : ℤ :=
  let endOffset := culledBase + ((backfaceCullSurvivors ps).length : ℤ)
  let c := endOffset - primitivesBase
  if c ≤ 0 then 1 else c

/-- Columns of a glm mat4 (glm stores matrices column-major). -/
structure Mat4 where
  c0 : Vec4
  c1 : Vec4
  c2 : Vec4
  c3 : Vec4
deriving DecidableEq

/-- glm matrix-vector product m * v = c0*v.x + c1*v.y + c2*v.z + c3*v.w. -/
def multiplyMat4Vec4 (m : Mat4) (v : Vec4) : Vec4 :=
  ⟨m.c0.x * v.x + m.c1.x * v.y + m.c2.x * v.z + m.c3.x * v.w,
   m.c0.y * v.x + m.c1.y * v.y + m.c2.y * v.z + m.c3.y * v.w,
   m.c0.z * v.x + m.c1.z * v.y + m.c2.z * v.z + m.c3.z * v.w,
   m.c0.w * v.x + m.c1.w * v.y + m.c2.w * v.z + m.c3.w * v.w⟩

/-- The identity mat4. -/
def mat4Identity : Mat4 :=
  ⟨⟨1, 0, 0, 0⟩, ⟨0, 1, 0, 0⟩, ⟨0, 0, 1, 0⟩, ⟨0, 0, 0, 1⟩⟩

/-- The position computation of _vertexTransformAndAssembly: clip position
MVP * (p, 1), perspective divide of all four components by w, then the
viewport map x := 0.5 * width * (x + 1), y := 0.5 * height * (1 - y). -/
def vertexTransformViewport (MVP : Mat4) (p : Vec3) (width height : ℚ) : Vec4 :=
  let tp := multiplyMat4Vec4 MVP ⟨p.x, p.y, p.z, 1⟩
  let d : Vec4 := ⟨tp.x / tp.w, tp.y / tp.w, tp.z / tp.w, tp.w / tp.w⟩
  ⟨(1 / 2) * width * (d.x + 1), (1 / 2) * height * (1 - d.y), d.z, d.w⟩

/-- Primitive-mode constants of the tinygltf loader. -/
def TINYGLTF_MODE_POINTS : ℤ := 0

/-- Primitive-mode constant: LINE. -/
def TINYGLTF_MODE_LINE : ℤ := 1

/-- Primitive-mode constant: LINE_LOOP. -/
def TINYGLTF_MODE_LINE_LOOP : ℤ := 2

/-- Primitive-mode constant: TRIANGLES. -/
def TINYGLTF_MODE_TRIANGLES : ℤ := 4

/-- Primitive-mode constant: TRIANGLE_STRIP. -/
def TINYGLTF_MODE_TRIANGLE_STRIP : ℤ := 5

/-- Primitive-mode constant: TRIANGLE_FAN. -/
def TINYGLTF_MODE_TRIANGLE_FAN : ℤ := 6

/-- The switch in rasterizeSetBuffers that derives numPrimitives from the
glTF primitive mode and the index count.  The default branch of the source
leaves numPrimitives uninitialized; it is modelled as 0 and reached by no
claim. -/
def numPrimitivesForMode (mode numIndices : ℤ) : ℤ :=
  if mode = TINYGLTF_MODE_TRIANGLES then Int.tdiv numIndices 3
  else if mode = TINYGLTF_MODE_TRIANGLE_STRIP then numIndices - 2
  else if mode = TINYGLTF_MODE_TRIANGLE_FAN then numIndices - 2
  else if mode = TINYGLTF_MODE_LINE then Int.tdiv numIndices 2
  else if mode = TINYGLTF_MODE_LINE_LOOP then numIndices + 1
  else if mode = TINYGLTF_MODE_POINTS then numIndices
  else 0

/-- The write _primitiveAssembly performs for one index id: when the mode
is TINYGLTF_MODE_TRIANGLES it fills vertex slot iid mod primitiveType of
primitive iid / primitiveType + curPrimitiveBeginId; for every other mode
the kernel body writes nothing, returned as none. -/
def primitiveAssemblySlot (primitiveMode primitiveType curPrimitiveBeginId iid : ℤ) :
    Option (ℤ × ℤ) :=
  if primitiveMode = TINYGLTF_MODE_TRIANGLES then
    some (Int.tdiv iid primitiveType + curPrimitiveBeginId, Int.tmod iid primitiveType)
  else none

/-- The k-buffer accumulation state of one pixel: the premultiplied-color
accumulator depthAccum and the revealage scalar depthRevealage. -/
structure OITState where
  accum : Vec4
  revealage : ℚ
deriving DecidableEq

/-- The alpha the USE_K_BUFFER branch of _rasterize derives from the
resolved color: color.a = 0.1, then scaled by one minus the clamped mean of
the three channels. -/
def oitModifiedAlpha (color : Vec4) : ℚ :=
  (1 / 10) * (1 - clampQ ((color.x + color.y + color.z) * (1 / 3)) 0 1)

/-- The weight of the USE_K_BUFFER branch:
clamp(a^3 * 1e8 * b^3, 1e-2, 3e2) with a = min(1, alpha) * 8 + 0.01 and
b = depth * 0.95 + 1. -/
def oitWeightFn (alpha depth : ℚ) : ℚ :=
  let a := min 1 alpha * 8 + 1 / 100
  let b := depth * (19 / 20) + 1
  clampQ (a * a * a * 100000000 * (b * b * b)) (1 / 100) 300

/-- The per-pixel update of the USE_K_BUFFER branch of _rasterize: the four
accumulator channels receive atomicAdd of the weighted color (the fourth
channel holds the modified alpha, since glm aliases .a with .w), while
depthRevealage[index] is assigned the modified alpha by a plain store. -/
def kBufferUpdate (st : OITState) (colorIn : Vec4) (depth : ℚ) : OITState :=
  let alpha := oitModifiedAlpha colorIn
  let w := oitWeightFn alpha depth
  { accum := ⟨st.accum.x + colorIn.x * w, st.accum.y + colorIn.y * w,
              st.accum.z + colorIn.z * w, st.accum.w + alpha * w⟩
    revealage := alpha }

/-- The float that cudaMemset(dev_depthRevealage, 1, ...) leaves in every
cell of the revealage buffer: each byte set to 0x01 gives the IEEE-754
single-precision bit pattern 0x01010101, whose exact value is
2^(2-127) * (1 + 65793/2^23) = 8454401/2^148 (about 2.37e-38, not 1.0). -/
def memsetByteOneFloat : ℚ := 8454401 / 2 ^ 148

/-- The per-pixel state of the two accumulation buffers right after the
per-frame resets in rasterize(): cudaMemset zero-fills dev_depthAccum and
byte-fills dev_depthRevealage with 1, discarding the previous frame's
content prev. -/
def oitFrameReset (prev : OITState) : OITState :=
  { accum := ⟨0, 0, 0, 0⟩, revealage := memsetByteOneFloat }

/-- One pixel across a whole frame in USE_K_BUFFER mode, as sequenced by
rasterize(): the per-frame resets of both accumulation buffers, then the
kBufferUpdate of every accepted fragment (resolved color and interpolated
depth) covering the pixel, in processing order. -/
def oitFrame (fragments : List (Vec4 × ℚ)) (prev : OITState) : OITState :=
  fragments.foldl (fun st fd => kBufferUpdate st fd.1 fd.2) (oitFrameReset prev)

/-- A 4-channel 8-bit pixel of the presentable surface (uchar4). -/
structure UChar4 where
  x : ℤ
  y : ℤ
  z : ℤ
  w : ℤ
deriving DecidableEq

/-- One pixel of sendImageToPBO: each channel of the float framebuffer is
clamped to [0, 1] and scaled by 255, the alpha channel being computed from
the framebuffer's z (blue) channel; the four floats are then narrowed to
bytes. -/
def sendImageToPBOPixel (image : Vec4) : UChar4 :=
  let cx := clampQ image.x 0 1 * 255
  let cy := clampQ image.y 0 1 * 255
  let cz := clampQ image.z 0 1 * 255
  let cw := clampQ image.z 0 1 * 255
  ⟨cppIntCast cx, cppIntCast cy, cppIntCast cz, cppIntCast cw⟩

/-- A vertex record for concrete instances: position and color given, no
texture, material id -1, eye-space data fixed. -/
def plainVertex (posv colv : Vec4) : VertexOut :=
  { pos := posv, eyePos := ⟨0, 0, -5⟩, eyeNor := ⟨0, 0, 1⟩, color := colv,
    texcoord0 := ⟨0, 0⟩, dev_diffuseTex := none, texWidth := 0, texHeight := 0,
    materialId := -1 }

/-- A red triangle covering pixel (1, 1) at depth 1. -/
def nearPrimitive : Primitive :=
  ⟨plainVertex ⟨0, 0, 1, 1⟩ ⟨1, 0, 0, 1⟩,
   plainVertex ⟨4, 0, 1, 1⟩ ⟨1, 0, 0, 1⟩,
   plainVertex ⟨0, 4, 1, 1⟩ ⟨1, 0, 0, 1⟩⟩

/-- A green triangle covering pixel (1, 1) at depth 2. -/
def farPrimitive : Primitive :=
  ⟨plainVertex ⟨0, 0, 2, 1⟩ ⟨0, 1, 0, 1⟩,
   plainVertex ⟨4, 0, 2, 1⟩ ⟨0, 1, 0, 1⟩,
   plainVertex ⟨0, 4, 2, 1⟩ ⟨0, 1, 0, 1⟩⟩

/-- A front-facing triangle: face normal (0, 0, 1), eye position behind
the camera plane, so the culling dot product is positive. -/
def frontFacingPrimitive : Primitive :=
  ⟨plainVertex ⟨0, 0, 0, 1⟩ ⟨1, 0, 0, 1⟩,
   plainVertex ⟨1, 0, 0, 1⟩ ⟨1, 0, 0, 1⟩,
   plainVertex ⟨0, 1, 0, 1⟩ ⟨1, 0, 0, 1⟩⟩

/-- Helper for the depth-test property: when the first primitive has the
strictly smaller interpolated depth at an accepted pixel, both processing
orders leave that primitive's resolved color in the fragment record. -/
theorem rasterize_pixel_nearer_wins (p1 p2 : Primitive) (px py : ℤ)
    (hb1 : isBarycentricCoordInBounds (baryOf p1 px py) = true)
    (hb2 : isBarycentricCoordInBounds (baryOf p2 px py) = true)
    (hd : depthOf p1 px py < depthOf p2 px py) :
    (rasterizePixelStep p2 px py (rasterizePixelStep p1 px py initPixelState)).color
      = resolvedColor p1 px py
    ∧ (rasterizePixelStep p1 px py (rasterizePixelStep p2 px py initPixelState)).color
      = resolvedColor p1 px py := by
  have h1 : rasterizePixelStep p1 px py initPixelState =
      { color := resolvedColor p1 px py, materialId := p1.v0.materialId,
        depth := some (depthOf p1 px py) } := by
    simp [rasterizePixelStep, hb1, initPixelState, depthLess, fatomicMin]
  have h2 : rasterizePixelStep p2 px py initPixelState =
      { color := resolvedColor p2 px py, materialId := p2.v0.materialId,
        depth := some (depthOf p2 px py) } := by
    simp [rasterizePixelStep, hb2, initPixelState, depthLess, fatomicMin]
  constructor
  · rw [h1]
    have hcond : depthLess (depthOf p2 px py) (some (depthOf p1 px py)) = false := by
      simp [depthLess]
      exact hd.le
    simp [rasterizePixelStep, hb2, hcond]
  · rw [h2]
    have hcond : depthLess (depthOf p1 px py) (some (depthOf p2 px py)) = true := by
      simp [depthLess]
      exact hd
    simp [rasterizePixelStep, hb1, hcond]

/-- C1: in standard depth-test mode, when two triangles both cover a pixel
(their barycentric coordinates pass the in-bounds test) with distinct
perspective-correct depths there, the fragment color after rasterizing
both, starting from the cleared per-frame state, is the resolved color of
the strictly nearer triangle, in either processing order. -/
theorem depth_test_order_independent (p1 p2 : Primitive) (px py : ℤ)
    (hb1 : isBarycentricCoordInBounds (baryOf p1 px py) = true)
    (hb2 : isBarycentricCoordInBounds (baryOf p2 px py) = true)
    (hd : depthOf p1 px py ≠ depthOf p2 px py) :
    (rasterizePixelStep p2 px py (rasterizePixelStep p1 px py initPixelState)).color
      = (if depthOf p1 px py < depthOf p2 px py then resolvedColor p1 px py
         else resolvedColor p2 px py)
    ∧ (rasterizePixelStep p1 px py (rasterizePixelStep p2 px py initPixelState)).color
      = (if depthOf p1 px py < depthOf p2 px py then resolvedColor p1 px py
         else resolvedColor p2 px py) := by
  rcases lt_or_gt_of_ne hd with h | h
  · rw [if_pos h]
    exact rasterize_pixel_nearer_wins p1 p2 px py hb1 hb2 h
  · rw [if_neg (not_lt.mpr h.le)]
    have hsym := rasterize_pixel_nearer_wins p2 p1 px py hb2 hb1 h
    exact ⟨hsym.2, hsym.1⟩

/-- Witness for C1: the red triangle at depth 1 and the green triangle at
depth 2 both cover pixel (1, 1); in both orders the pixel ends up red. -/
theorem depth_test_order_independent_witness :
    isBarycentricCoordInBounds (baryOf nearPrimitive 1 1) = true
    ∧ isBarycentricCoordInBounds (baryOf farPrimitive 1 1) = true
    ∧ depthOf nearPrimitive 1 1 ≠ depthOf farPrimitive 1 1
    ∧ ((rasterizePixelStep farPrimitive 1 1
          (rasterizePixelStep nearPrimitive 1 1 initPixelState)).color
        = (if depthOf nearPrimitive 1 1 < depthOf farPrimitive 1 1 then
            resolvedColor nearPrimitive 1 1 else resolvedColor farPrimitive 1 1)
      ∧ (rasterizePixelStep nearPrimitive 1 1
          (rasterizePixelStep farPrimitive 1 1 initPixelState)).color
        = (if depthOf nearPrimitive 1 1 < depthOf farPrimitive 1 1 then
            resolvedColor nearPrimitive 1 1 else resolvedColor farPrimitive 1 1)) := by
  have hb1 : isBarycentricCoordInBounds (baryOf nearPrimitive 1 1) = true := by
    norm_num [isBarycentricCoordInBounds, baryOf, calculateBarycentricCoordinate,
      calculateBarycentricCoordinateValue, calculateSignedArea, tri0, tri1, tri2,
      vec3OfVec4, nearPrimitive, plainVertex]
  have hb2 : isBarycentricCoordInBounds (baryOf farPrimitive 1 1) = true := by
    norm_num [isBarycentricCoordInBounds, baryOf, calculateBarycentricCoordinate,
      calculateBarycentricCoordinateValue, calculateSignedArea, tri0, tri1, tri2,
      vec3OfVec4, farPrimitive, plainVertex]
  have hd : depthOf nearPrimitive 1 1 ≠ depthOf farPrimitive 1 1 := by
    norm_num [depthOf, getPerspectiveCorrectZAtCoordinate, baryOf,
      calculateBarycentricCoordinate, calculateBarycentricCoordinateValue,
      calculateSignedArea, tri0, tri1, tri2, vec3OfVec4, nearPrimitive, farPrimitive,
      plainVertex]
  exact ⟨hb1, hb2, hd,
    depth_test_order_independent nearPrimitive farPrimitive 1 1 hb1 hb2 hd⟩

/-- C2 counterexample: at the barycentric coordinate (1/3, 1/3, 1/3),
which is strictly inside [0,1] in every component and sums to 1, a
triangle with vertex z values 1, 1, -1 gets interpolated depth 3, which
does not lie between the minimum -1 and the maximum 1 of the vertex z
values. -/
theorem perspective_z_mixed_sign_counterexample :
    (0 < (1/3 : ℚ) ∧ (1/3 : ℚ) < 1 ∧ (1/3 : ℚ) + 1/3 + 1/3 = 1)
    ∧ getPerspectiveCorrectZAtCoordinate ⟨1/3, 1/3, 1/3⟩ ⟨0, 0, 1⟩ ⟨1, 0, 1⟩ ⟨0, 1, -1⟩ = 3
    ∧ ¬(getPerspectiveCorrectZAtCoordinate ⟨1/3, 1/3, 1/3⟩ ⟨0, 0, 1⟩ ⟨1, 0, 1⟩ ⟨0, 1, -1⟩
        ≤ max (1 : ℚ) (max 1 (-1))) := by
  norm_num [getPerspectiveCorrectZAtCoordinate]

/-- C2 (amended): when additionally all three vertex z values are strictly
positive, the perspective-correct depth at a barycentric coordinate that
is strictly inside [0,1] in every component and sums to 1 lies between the
minimum and the maximum of the three vertex z values. -/
theorem perspective_z_between_of_pos (b t0 t1 t2 : Vec3)
    (hx0 : 0 < b.x) (hx1 : b.x < 1) (hy0 : 0 < b.y) (hy1 : b.y < 1)
    (hz0 : 0 < b.z) (hz1 : b.z < 1) (hsum : b.x + b.y + b.z = 1)
    (h0 : 0 < t0.z) (h1 : 0 < t1.z) (h2 : 0 < t2.z) :
    min t0.z (min t1.z t2.z) ≤ getPerspectiveCorrectZAtCoordinate b t0 t1 t2
    ∧ getPerspectiveCorrectZAtCoordinate b t0 t1 t2 ≤ max t0.z (max t1.z t2.z) := by
  set zmin := min t0.z (min t1.z t2.z) with hzmin_def
  set zmax := max t0.z (max t1.z t2.z) with hzmax_def
  have hzmin : 0 < zmin := lt_min h0 (lt_min h1 h2)
  have hmin0 : zmin ≤ t0.z := min_le_left _ _
  have hmin1 : zmin ≤ t1.z := le_trans (min_le_right _ _) (min_le_left _ _)
  have hmin2 : zmin ≤ t2.z := le_trans (min_le_right _ _) (min_le_right _ _)
  have hmax0 : t0.z ≤ zmax := le_max_left _ _
  have hmax1 : t1.z ≤ zmax := le_trans (le_max_left _ _) (le_max_right _ _)
  have hmax2 : t2.z ≤ zmax := le_trans (le_max_right _ _) (le_max_right _ _)
  have hupper : b.x / t0.z + b.y / t1.z + b.z / t2.z ≤ 1 / zmin := by
    have e : b.x / zmin + b.y / zmin + b.z / zmin = 1 / zmin := by
      rw [div_add_div_same, div_add_div_same, hsum]
    calc b.x / t0.z + b.y / t1.z + b.z / t2.z
        ≤ b.x / zmin + b.y / zmin + b.z / zmin := by gcongr
      _ = 1 / zmin := e
  have hlower : 1 / zmax ≤ b.x / t0.z + b.y / t1.z + b.z / t2.z := by
    have e : b.x / zmax + b.y / zmax + b.z / zmax = 1 / zmax := by
      rw [div_add_div_same, div_add_div_same, hsum]
    calc (1 : ℚ) / zmax = b.x / zmax + b.y / zmax + b.z / zmax := e.symm
      _ ≤ b.x / t0.z + b.y / t1.z + b.z / t2.z := by gcongr
  have hinvpos : 0 < b.x / t0.z + b.y / t1.z + b.z / t2.z := by
    have hzmaxpos : 0 < zmax := lt_of_lt_of_le h0 hmax0
    exact lt_of_lt_of_le (by positivity) hlower
  unfold getPerspectiveCorrectZAtCoordinate
  constructor
  · have h := one_div_le_one_div_of_le hinvpos hupper
    rwa [one_div_one_div] at h
  · have hzmaxpos : 0 < zmax := lt_of_lt_of_le h0 hmax0
    have h := one_div_le_one_div_of_le (by positivity : (0:ℚ) < 1 / zmax) hlower
    rwa [one_div_one_div] at h

/-- Witness for the amended C2: barycentric coordinate (1/2, 1/4, 1/4) and
vertex z values 1, 2, 4 give a depth between 1 and 4. -/
theorem perspective_z_between_of_pos_witness :
    (0 < (1/2 : ℚ)) ∧ ((1/2 : ℚ) < 1) ∧ (0 < (1/4 : ℚ)) ∧ ((1/4 : ℚ) < 1)
    ∧ ((1/2 : ℚ) + 1/4 + 1/4 = 1) ∧ (0 < (1 : ℚ)) ∧ (0 < (2 : ℚ)) ∧ (0 < (4 : ℚ))
    ∧ (min (1 : ℚ) (min 2 4)
          ≤ getPerspectiveCorrectZAtCoordinate ⟨1/2, 1/4, 1/4⟩ ⟨0, 0, 1⟩ ⟨1, 0, 2⟩ ⟨0, 1, 4⟩
       ∧ getPerspectiveCorrectZAtCoordinate ⟨1/2, 1/4, 1/4⟩ ⟨0, 0, 1⟩ ⟨1, 0, 2⟩ ⟨0, 1, 4⟩
          ≤ max (1 : ℚ) (max 2 4)) := by
  refine ⟨by norm_num, by norm_num, by norm_num, by norm_num, by norm_num, by norm_num,
    by norm_num, by norm_num, ?_⟩
  exact perspective_z_between_of_pos ⟨1/2, 1/4, 1/4⟩ ⟨0, 0, 1⟩ ⟨1, 0, 2⟩ ⟨0, 1, 4⟩
    (by norm_num) (by norm_num) (by norm_num) (by norm_num) (by norm_num) (by norm_num)
    (by norm_num) (by norm_num) (by norm_num) (by norm_num)

/-- C3: evaluation of the culled-primitive count at a concrete input.  One
front-facing primitive survives the remove_if compaction (in order), yet
the count the source computes subtracts the base of dev_primitives from an
end pointer lying in dev_culledPrimitives; with the two buffers at distinct
device addresses (element offsets 0 and 2 here) the dispatched count is 3,
not the survivor count 1. -/
theorem culled_count_wrong_base :
    backfaceCullSurvivors [frontFacingPrimitive] = [frontFacingPrimitive]
    ∧ culledNumPrimitives 0 2 [frontFacingPrimitive] = 3
    ∧ culledNumPrimitives 0 2 [frontFacingPrimitive]
        ≠ ((backfaceCullSurvivors [frontFacingPrimitive]).length : ℤ) := by
  have hs : backfaceCullSurvivors [frontFacingPrimitive] = [frontFacingPrimitive] := by
    norm_num [backfaceCullSurvivors, List.filter, shouldBackfaceCull, frontFacingPrimitive,
      plainVertex, vec4Sub, vec3OfVec4, crossQ, dotQ, negQ3]
  refine ⟨hs, ?_, ?_⟩ <;> norm_num [culledNumPrimitives, hs]

/-- C4: evaluation of the scan loop at a concrete input.  For a 4-by-4
image and the triangle with projected vertices (0,0), (10,0), (10,10), the
clamped bounding box makes the loops visit pixel (4, 3); that pixel passes
the barycentric in-bounds test, its x coordinate is not below the image
width 4, and its flat index 4 + 3*4 is not below 4*4 — the scan leaves
the depth- and fragment-buffer range [0, w*h). -/
theorem bbox_scan_exceeds_image :
    pixelScanned (getAABBForTriangle ⟨0, 0, 1⟩ ⟨10, 0, 1⟩ ⟨10, 10, 1⟩ 4 4) 4 3 = true
    ∧ isBarycentricCoordInBounds
        (calculateBarycentricCoordinate ⟨0, 0, 1⟩ ⟨10, 0, 1⟩ ⟨10, 10, 1⟩ ⟨4, 3⟩) = true
    ∧ ¬((4 : ℤ) < 4) ∧ ¬((4 : ℤ) + 3 * 4 < 4 * 4) := by
  refine ⟨?_, ?_, by norm_num, by norm_num⟩
  · norm_num [pixelScanned, getAABBForTriangle, clampQ, cppIntCast]
  · norm_num [isBarycentricCoordInBounds, calculateBarycentricCoordinate,
      calculateBarycentricCoordinateValue, calculateSignedArea]

/-- C5: the vertex stage maps the perspective-divided clip position to the
viewport by x := 0.5*width*(x_ndc + 1) and y := 0.5*height*(1 - y_ndc) for
every MVP matrix, and with the identity MVP the stored viewport position
is exactly that affine image of the original vertex x and y. -/
theorem vertex_stage_viewport_map :
    (∀ (MVP : Mat4) (p : Vec3) (width height : ℚ),
       (vertexTransformViewport MVP p width height).x
         = (1 / 2) * width *
             ((multiplyMat4Vec4 MVP ⟨p.x, p.y, p.z, 1⟩).x
                / (multiplyMat4Vec4 MVP ⟨p.x, p.y, p.z, 1⟩).w + 1)
       ∧ (vertexTransformViewport MVP p width height).y
         = (1 / 2) * height *
             (1 - (multiplyMat4Vec4 MVP ⟨p.x, p.y, p.z, 1⟩).y
                / (multiplyMat4Vec4 MVP ⟨p.x, p.y, p.z, 1⟩).w))
    ∧ (∀ (p : Vec3) (width height : ℚ),
       (vertexTransformViewport mat4Identity p width height).x = (1 / 2) * width * (p.x + 1)
       ∧ (vertexTransformViewport mat4Identity p width height).y
         = (1 / 2) * height * (1 - p.y)) := by
  constructor
  · intro MVP p width height
    exact ⟨rfl, rfl⟩
  · intro p width height
    constructor <;> simp [vertexTransformViewport, multiplyMat4Vec4, mat4Identity]

/-- C6: the point-in-triangle test accepts a barycentric coordinate
exactly when all three components lie in the closed interval [0, 1]; in
particular pixel (2, 0), which lies exactly on an edge of the triangle
(0,0), (4,0), (0,4) and has barycentric component gamma = 0, is accepted
as inside. -/
theorem barycentric_bounds_inclusive :
    (∀ b : Vec3, isBarycentricCoordInBounds b = true ↔
      (0 ≤ b.x ∧ b.x ≤ 1 ∧ 0 ≤ b.y ∧ b.y ≤ 1 ∧ 0 ≤ b.z ∧ b.z ≤ 1))
    ∧ calculateBarycentricCoordinate ⟨0, 0, 1⟩ ⟨4, 0, 1⟩ ⟨0, 4, 1⟩ ⟨2, 0⟩ = ⟨1/2, 1/2, 0⟩
    ∧ isBarycentricCoordInBounds ⟨1/2, 1/2, 0⟩ = true := by
  refine ⟨fun b => ?_, ?_, ?_⟩
  · simp [isBarycentricCoordInBounds, and_assoc]
  · norm_num [calculateBarycentricCoordinate, calculateBarycentricCoordinateValue,
      calculateSignedArea]
  · norm_num [isBarycentricCoordInBounds]

/-- C7: evaluation of the nearest-neighbor texel index at a concrete
input.  With texture width 4 and height 3 and perspective-correct
uv = (0, 1/3), the source computes texel index 3, while the row-major
index the specification states, floor(u*W) + floor(v*H)*W, is 4. -/
theorem nearest_texel_index_swapped :
    nearestTexIndex ⟨0, 1/3⟩ 4 3 = 3
    ∧ specNearestTexIndex ⟨0, 1/3⟩ 4 3 = 4
    ∧ nearestTexIndex ⟨0, 1/3⟩ 4 3 ≠ specNearestTexIndex ⟨0, 1/3⟩ 4 3 := by
  norm_num [nearestTexIndex, specNearestTexIndex, cppIntCast]

/-- C8 counterexample: starting the k-buffer update from revealage 1 and
from revealage 2, the same black fragment leaves revealage 1/10 in both
cases — the stored value is independent of the previous content, so no
per-fragment additive contribution explains both runs (the deltas -9/10
and -19/10 differ); the revealage buffer is overwritten, not accumulated
by atomic add as the claim states. -/
theorem revealage_overwritten_not_accumulated :
    (kBufferUpdate ⟨⟨0, 0, 0, 0⟩, 1⟩ ⟨0, 0, 0, 0⟩ 0).revealage = 1/10
    ∧ (kBufferUpdate ⟨⟨0, 0, 0, 0⟩, 2⟩ ⟨0, 0, 0, 0⟩ 0).revealage = 1/10
    ∧ ((1/10 : ℚ) - 1 ≠ (1/10 : ℚ) - 2) := by
  norm_num [kBufferUpdate, oitModifiedAlpha, clampQ]

/-- C8 (amended): both per-pixel accumulation buffers are reset at the
start of every frame — the frame-start state zeroes the color accumulator,
byte-fills the revealage scalar, and is independent of the previous
frame's content, as is therefore the whole frame's result; the four
channels of the premultiplied-color accumulator then receive a
per-fragment additive contribution that is independent of the buffer's
previous content (atomic-add accumulation), while the revealage scalar is
overwritten with the fragment's modified alpha, independent of its
previous content. -/
theorem oit_accumulates_color_overwrites_revealage :
    (∀ prev1 prev2 : OITState,
      oitFrameReset prev1 = oitFrameReset prev2
      ∧ (oitFrameReset prev1).accum = ⟨0, 0, 0, 0⟩
      ∧ (oitFrameReset prev1).revealage = memsetByteOneFloat)
    ∧ (∀ (fragments : List (Vec4 × ℚ)) (prev1 prev2 : OITState),
      oitFrame fragments prev1 = oitFrame fragments prev2)
    ∧ (∀ (st1 st2 : OITState) (c : Vec4) (d : ℚ),
      (kBufferUpdate st1 c d).accum.x - st1.accum.x
          = (kBufferUpdate st2 c d).accum.x - st2.accum.x
      ∧ (kBufferUpdate st1 c d).accum.y - st1.accum.y
          = (kBufferUpdate st2 c d).accum.y - st2.accum.y
      ∧ (kBufferUpdate st1 c d).accum.z - st1.accum.z
          = (kBufferUpdate st2 c d).accum.z - st2.accum.z
      ∧ (kBufferUpdate st1 c d).accum.w - st1.accum.w
          = (kBufferUpdate st2 c d).accum.w - st2.accum.w
      ∧ (kBufferUpdate st1 c d).revealage = (kBufferUpdate st2 c d).revealage
      ∧ (kBufferUpdate st1 c d).revealage = oitModifiedAlpha c) := by
  refine ⟨fun prev1 prev2 => ⟨rfl, rfl, rfl⟩, fun fragments prev1 prev2 => rfl, ?_⟩
  intro st1 st2 c d
  refine ⟨?_, ?_, ?_, ?_, rfl, rfl⟩ <;> (simp only [kBufferUpdate]; ring)

/-- C9: the present step writes red, green and blue as the truncated
clamp(c, 0, 1)*255 of the corresponding framebuffer channel, and the
surface's alpha channel receives the value derived from the framebuffer's
z (blue) channel — the framebuffer's own alpha channel is ignored. -/
theorem present_alpha_from_blue :
    ∀ (image : Vec4) (a : ℚ),
      sendImageToPBOPixel ⟨image.x, image.y, image.z, a⟩ = sendImageToPBOPixel image
      ∧ (sendImageToPBOPixel image).x = cppIntCast (clampQ image.x 0 1 * 255)
      ∧ (sendImageToPBOPixel image).y = cppIntCast (clampQ image.y 0 1 * 255)
      ∧ (sendImageToPBOPixel image).z = cppIntCast (clampQ image.z 0 1 * 255)
      ∧ (sendImageToPBOPixel image).w = (sendImageToPBOPixel image).z := by
  intro image a
  exact ⟨rfl, rfl, rfl, rfl, rfl⟩

/-- C10: for the TRIANGLE_STRIP and TRIANGLE_FAN glTF modes, buffer setup
counts numIndices - 2 primitives toward the global total, while the
primitive-assembly kernel performs no write for any index id under those
modes, so the reserved primitive slots are never filled by assembly. -/
theorem strip_fan_counted_not_assembled :
    ∀ numIndices : ℤ,
      numPrimitivesForMode TINYGLTF_MODE_TRIANGLE_STRIP numIndices = numIndices - 2
      ∧ numPrimitivesForMode TINYGLTF_MODE_TRIANGLE_FAN numIndices = numIndices - 2
      ∧ ∀ primitiveType beginId iid : ℤ,
          primitiveAssemblySlot TINYGLTF_MODE_TRIANGLE_STRIP primitiveType beginId iid
              = none
          ∧ primitiveAssemblySlot TINYGLTF_MODE_TRIANGLE_FAN primitiveType beginId iid
              = none := by
  intro n
  refine ⟨?_, ?_, fun t b i => ⟨?_, ?_⟩⟩ <;>
    norm_num [numPrimitivesForMode, primitiveAssemblySlot, TINYGLTF_MODE_TRIANGLES,
      TINYGLTF_MODE_TRIANGLE_STRIP, TINYGLTF_MODE_TRIANGLE_FAN, TINYGLTF_MODE_LINE,
      TINYGLTF_MODE_LINE_LOOP, TINYGLTF_MODE_POINTS]
